import Mathlib

/-!
Shallow embedding of the netgearpy client library (src/netgearpy) in Lean 4.

Conventions used throughout:
* Python exceptions (KeyError, IndexError, ValueError, ET.ParseError) are
  modelled by `Option`: `none` is a raised error, `some` a normal return.
* Python `dict[str, ...]` values are association lists looked up first-match;
  `{**d, k: v}` is modelled by prepending `(k, v)`, which preserves lookup
  semantics.
* Python `float` values are modelled as rationals `ℚ`.  Every float literal
  the library's decoders care about is a short decimal string, exactly
  representable, so the success/error behaviour and the truncation behaviour
  of the code are preserved by the rational model.
* `str.split(sep)` (all separators in this library are single characters)
  is `pySplit`, defined by structural recursion so that proofs can evaluate
  it; it agrees with Python's separator semantics (`"".split(s) = [""]`,
  empty segments kept).
-/

namespace Netgearpy

/-- Model of a Python runtime value as stored in the string-keyed field maps
the codecs consume: a string, an int, a bool, or Python's `None`. -/
inductive PyVal where
  | str (s : String)
  | int (n : Int)
  | bool (b : Bool)
  | pynone
  deriving DecidableEq

/-- A Python `dict[str, Any]` as an association list (first match wins). -/
abbrev PyDict := List (String × PyVal)

/-- First-match lookup in an association list, i.e. Python `d[k]` returning
`none` where Python raises `KeyError`. -/
def dictGet {α : Type} : List (String × α) → String → Option α
  | [], _ => none
  | (k, v) :: d, key => if k = key then some v else dictGet d key

/-- Python `{**d, k: v}` (equivalently `d[k] = v`), modelled by prepending:
lookups by `dictGet` see the new binding first. -/
def dictSet {α : Type} (d : List (String × α)) (k : String) (v : α) :
    List (String × α) :=
  (k, v) :: d

/-- Worker for `pySplit`: the accumulator holds the current segment's
characters in reverse. -/
def splitCharAux (sep : Char) : List Char → List Char → List String
  | [], acc => [String.mk acc.reverse]
  | c :: cs, acc =>
      if c = sep then String.mk acc.reverse :: splitCharAux sep cs []
      else splitCharAux sep cs (c :: acc)

/-- Python `s.split(sep)` for a one-character separator: segments between
occurrences of `sep`, empty segments kept, `[""]` on the empty string. -/
def pySplit (s : String) (sep : Char) : List String :=
  splitCharAux sep s.toList []

/-- Python `s.strip()` on a character list: whitespace removed from both
ends (used by `int(...)` and `float(...)`). -/
def pyStrip (cs : List Char) : List Char :=
  ((cs.dropWhile Char.isWhitespace).reverse.dropWhile Char.isWhitespace).reverse

/-- Numeric value of a list of ASCII decimal digits. -/
def digitsVal (cs : List Char) : Nat :=
  cs.foldl (fun a c => 10 * a + (c.toNat - 48)) 0

/-- Value of a nonempty all-digit character list, `none` otherwise. -/
def decDigits (cs : List Char) : Option Nat :=
  if !cs.isEmpty && cs.all Char.isDigit then some (digitsVal cs) else none

/-- Model of Python's built-in `int(s)` on a string: optional surrounding
whitespace, an optional sign, then one or more decimal digits; anything
else raises `ValueError` (modelled as `none`).  This is a strict integer
parse: a decimal-formatted string such as "0.0" is rejected. -/
def pyInt (s : String) : Option Int :=
  match pyStrip s.toList with
  | '+' :: rest => (decDigits rest).map (fun n => (n : Int))
  | '-' :: rest => (decDigits rest).map (fun n => -(n : Int))
  | cs => (decDigits cs).map (fun n => (n : Int))

/-- Magnitude of a decimal literal: digits, optionally a point and more
digits, with at least one digit overall (Python accepts "1.", ".5"). -/
def pyDecMag (cs : List Char) : Option ℚ :=
  let ip := cs.takeWhile Char.isDigit
  match cs.dropWhile Char.isDigit with
  | [] => if ip.isEmpty then none else some (mkRat (digitsVal ip) 1)
  | '.' :: fp =>
      if fp.all Char.isDigit && (!ip.isEmpty || !fp.isEmpty) then
        some (mkRat (digitsVal ip * 10 ^ fp.length + digitsVal fp) (10 ^ fp.length))
      else none
  | _ => none

/-- Model of Python's built-in `float(s)` on the decimal fragment the router
emits: optional surrounding whitespace, optional sign, digits with an
optional fractional part.  (Exponent, inf and nan forms never occur in the
payloads this library parses and are not modelled.) -/
def pyFloat (s : String) : Option ℚ :=
  match pyStrip s.toList with
  | '+' :: rest => pyDecMag rest
  | '-' :: rest => (pyDecMag rest).map Neg.neg
  | cs => pyDecMag cs

/-- Truncation toward zero of a rational, i.e. Python's `int(float_value)`. -/
def ratTrunc (q : ℚ) : Int :=
  Int.tdiv q.num (q.den : Int)

/-- Python `int(value)` on an arbitrary runtime value: strings are parsed
strictly, ints pass through, bools coerce to 0/1, `None` raises. -/
def pyIntVal : PyVal → Option Int
  | .str s => pyInt s
  | .int n => some n
  | .bool b => some (if b then 1 else 0)
  | .pynone => none

/-- Python `float(value)` on an arbitrary runtime value. -/
def pyFloatVal : PyVal → Option ℚ
  | .str s => pyFloat s
  | .int n => some ((n : ℚ))
  | .bool b => some (if b then 1 else 0)
  | .pynone => none

/-! ### helpers.py -/

/-- Body of `time_to_minutes` after `source.split(":")`: embedding of
src/netgearpy/helpers.py lines 6-11.  `parts[0]`/`parts[1]` raise
`IndexError` when missing; `int(...)` raises `ValueError` on non-numeric
text; the sentinel pair "--"/"--" short-circuits to 0. -/
def timeParts (parts : List String) : Option Int := do
  let p0 ← parts[0]?
  let p1 ← parts[1]?
  if p0 = "--" ∧ p1 = "--" then
    pure 0
  else do
    let hours ← pyInt p0
    let minutes ← pyInt p1
    pure (hours * 60 + minutes)

/-- Embedding of `helpers.time_to_minutes`: convert a time string to
minutes. -/
def time_to_minutes (source : String) : Option Int :=
  timeParts (pySplit source ':')

/-- Body of `statistics_to_data` after `source.split("/")`: embedding of
src/netgearpy/helpers.py lines 16-17.  Only `parts[0]` and `parts[1]` are
read; extra segments are ignored; a missing second segment raises
`IndexError`. -/
def statsParts (parts : List String) : Option (ℚ × ℚ) := do
  let p0 ← parts[0]?
  let p1 ← parts[1]?
  let a ← pyFloat p0
  let b ← pyFloat p1
  pure (a, b)

/-- Embedding of `helpers.statistics_to_data`: convert a "total/average"
statistics string to a pair of floats. -/
def statistics_to_data (source : String) : Option (ℚ × ℚ) :=
  statsParts (pySplit source '/')

/-! ### models.py -/

/-- Embedding of `models.ConnectionType` (a Python `StrEnum`). -/
inductive ConnectionType where
  | wired
  | wireless
  | two_ghz
  | five_ghz
  deriving DecidableEq

/-- Python `ConnectionType(value)`: member lookup by string value, raising
`ValueError` (here `none`) for a non-member. -/
def ConnectionType.ofString : String → Option ConnectionType
  | "wired" => some .wired
  | "wireless" => some .wireless
  | "2.4GHz" => some .two_ghz
  | "5GHz" => some .five_ghz
  | _ => none

/-- Embedding of `models.DeviceType` (a Python `StrEnum` of device-type
classifications; no claim inspects individual members, but the field exists
on `AttachedDevice`). -/
inductive DeviceType where
  | generic_computer
  | laptop
  | desktop
  | generic_entertainment
  | tv
  | media_streamer
  | gaming
  | smart_speaker
  | generic_home_office
  | printer
  | generic_iot
  | smart_plug
  | fridge
  | light
  | thermostat
  | frame
  | generic_smartphone
  | tablet
  | generic_network
  | nas
  | router
  | extender
  | ip_phone
  | generic_security
  | camera
  | doorbell
  | smart_lock
  | generic_wearable
  deriving DecidableEq

/-- Embedding of the `models.AttachedDevice` dataclass. -/
structure AttachedDevice where
  ip_address : String
  hostname : Option String
  name_set_by_user : Option Bool
  mac_address : String
  connection_type : Option ConnectionType
  ssid : Option String
  link_speed : Option Int
  signal_strength : Option Int
  blocked : Option Bool
  schedule : Option Bool
  device_type : Option DeviceType
  device_model : Option String
  device_model_set_by_user : Option Bool
  qos_priority : Option Int
  deriving DecidableEq

/-- Embedding of `AttachedDevice.__pre_deserialize__` (models.py lines
224-230): returns `{**d, "blocked": d["AllowOrBlock"] == "Block"}`; reading
`d["AllowOrBlock"]` raises `KeyError` (`none`) when the key is absent. -/
def AttachedDevice.pre_deserialize (d : PyDict) : Option PyDict := do
  let v ← dictGet d "AllowOrBlock"
  pure (dictSet d "blocked" (PyVal.bool (v == PyVal.str "Block")))

/-- The blocked flag a keyed-map decode of `AttachedDevice` produces: the
"blocked" entry written by `AttachedDevice.pre_deserialize`, read back as a
bool. -/
def AttachedDevice.decodeBlocked (d : PyDict) : Option Bool :=
  (AttachedDevice.pre_deserialize d).bind fun d2 =>
    match dictGet d2 "blocked" with
    | some (.bool b) => some b
    | _ => none

/-- Body of `AttachedDevice.from_string` after `source_string.split(";")`:
embedding of models.py lines 235-267.  Out-of-range `parts[i]` raises
`IndexError`; `ConnectionType(...)` and `int(...)` raise `ValueError`; all
are modelled as `none`.  Fields never set by this code path are `None`. -/
def AttachedDevice.fromParts (parts : List String) : Option AttachedDevice := do
  let ip_address ← parts[1]?
  let p2 ← parts[2]?
  let hostname := if p2 ≠ "--" then some p2 else none
  let mac_address ← parts[3]?
  let fields ←
    if 7 ≤ parts.length then do
      let ct ← ConnectionType.ofString (parts.getD 4 "")
      let ls ←
        if parts.getD 5 "" ≠ "" then (pyInt (parts.getD 5 "")).map some
        else pure none
      let ss ← pyInt (parts.getD 6 "")
      let bl :=
        if 8 ≤ parts.length then some (parts.getD 7 "" != "Allow") else none
      pure (some ct, ls, some ss, bl)
    else
      pure ((none : Option ConnectionType), (none : Option Int),
        (none : Option Int), (none : Option Bool))
  let (connection_type, link_speed, signal_strength, blocked) := fields
  pure {
    ip_address := ip_address
    hostname := hostname
    name_set_by_user := none
    mac_address := mac_address
    connection_type := connection_type
    ssid := none
    link_speed := link_speed
    signal_strength := signal_strength
    blocked := blocked
    schedule := none
    device_type := none
    device_model := none
    device_model_set_by_user := none
    qos_priority := none
  }

/-- Embedding of `AttachedDevice.from_string`: decode one semicolon-delimited
device record. -/
def AttachedDevice.from_string (source_string : String) : Option AttachedDevice :=
  AttachedDevice.fromParts (pySplit source_string ';')

/-- Embedding of `models.DeviceMode` (`IntEnum`: ROUTER = 0,
ACCESS_POINT = 1). -/
inductive DeviceMode where
  | router
  | access_point
  deriving DecidableEq

/-- Python `DeviceMode(value)` on an int: member lookup by value. -/
def DeviceMode.ofInt : Int → Option DeviceMode
  | 0 => some .router
  | 1 => some .access_point
  | _ => none

/-- Read a required plain-string field (mashumaro `str` field) from a field
map: the key must be present and hold a string. -/
def getStr (d : PyDict) (k : String) : Option String :=
  match dictGet d k with
  | some (.str s) => some s
  | _ => none

/-- Read a required `str | None` field: a string decodes to `some`, Python
`None` decodes to the unset value, a missing key is an error. -/
def getOptStr (d : PyDict) (k : String) : Option (Option String) :=
  match dictGet d k with
  | some (.str s) => some (some s)
  | some .pynone => some none
  | _ => none

/-- Read a required `int` field (mashumaro coerces with `int(value)`). -/
def getInt (d : PyDict) (k : String) : Option Int :=
  (dictGet d k).bind pyIntVal

/-- Read the `DeviceMode` field: after the pre-deserialize hook the value is
an int, and `DeviceMode(value)` looks the member up by value. -/
def getDeviceMode (d : PyDict) (k : String) : Option DeviceMode :=
  match dictGet d k with
  | some (.int n) => DeviceMode.ofInt n
  | _ => none

/-- Embedding of the `models.DeviceInfo` dataclass. -/
structure DeviceInfo where
  model : String
  serial_number : String
  firmware_version : String
  smart_agent_version : String
  firewall_version : String
  vpn_version : Option String
  other_software_version : String
  hardware_version : String
  other_hardware_version : Option String
  device_name : String
  device_mode : DeviceMode
  deriving DecidableEq

/-- One sentinel-normalization statement of `DeviceInfo.__pre_deserialize__`:
Python `if d[k] == "N/A": d[k] = None` — the read raises `KeyError` when
the key is absent, and the write only happens on the sentinel. -/
def normalizeNA (d : PyDict) (k : String) : Option PyDict := do
  let v ← dictGet d k
  pure (if v = PyVal.str "N/A" then dictSet d k PyVal.pynone else d)

/-- Embedding of `DeviceInfo.__pre_deserialize__` (models.py lines 297-304):
the "N/A" sentinel in `VPNVersion` / `Otherhardwareversion` becomes `None`,
and `DeviceMode` is coerced with the strict `int(d["DeviceMode"])` — there
is no float-then-truncate step here.  Each `d[...]` read raises `KeyError`
when the key is absent. -/
def DeviceInfo.pre_deserialize (d : PyDict) : Option PyDict := do
  let d ← normalizeNA d "VPNVersion"
  let d ← normalizeNA d "Otherhardwareversion"
  let dm ← dictGet d "DeviceMode"
  let n ← pyIntVal dm
  pure (dictSet d "DeviceMode" (PyVal.int n))

/-- Decode a `DeviceInfo` from a keyed field map: the pre-deserialize hook
followed by the per-field reads of the dataclass (every field is required;
aliases as in models.py lines 281-295). -/
def DeviceInfo.from_dict (d : PyDict) : Option DeviceInfo := do
  let d ← DeviceInfo.pre_deserialize d
  let model ← getStr d "ModelName"
  let serial_number ← getStr d "SerialNumber"
  let firmware_version ← getStr d "Firmwareversion"
  let smart_agent_version ← getStr d "SmartAgentversion"
  let firewall_version ← getStr d "FirewallVersion"
  let vpn_version ← getOptStr d "VPNVersion"
  let other_software_version ← getStr d "OthersoftwareVersion"
  let hardware_version ← getStr d "Hardwareversion"
  let other_hardware_version ← getOptStr d "Otherhardwareversion"
  let device_name ← getStr d "DeviceName"
  let device_mode ← getDeviceMode d "DeviceMode"
  pure {
    model := model
    serial_number := serial_number
    firmware_version := firmware_version
    smart_agent_version := smart_agent_version
    firewall_version := firewall_version
    vpn_version := vpn_version
    other_software_version := other_software_version
    hardware_version := hardware_version
    other_hardware_version := other_hardware_version
    device_name := device_name
    device_mode := device_mode
  }

/-- Embedding of the `models.CurrentSettings` dataclass. -/
structure CurrentSettings where
  firmware_version : String
  model : String
  login_method : Int
  https_port : Int
  deriving DecidableEq

/-- Embedding of `CurrentSettings.__pre_deserialize__` (models.py lines
146-152): `LoginMethod` is coerced with `int(float(...))` — the
float-then-truncate path that tolerates a decimal-formatted string. -/
def CurrentSettings.pre_deserialize (d : PyDict) : Option PyDict := do
  let lm ← dictGet d "LoginMethod"
  let q ← pyFloatVal lm
  pure (dictSet d "LoginMethod" (PyVal.int (ratTrunc q)))

/-- Decode a `CurrentSettings` from a keyed field map: the pre-deserialize
hook followed by the per-field reads (aliases as in models.py lines
141-144; the two int fields are coerced with `int(value)`). -/
def CurrentSettings.from_dict (d : PyDict) : Option CurrentSettings := do
  let d ← CurrentSettings.pre_deserialize d
  let firmware_version ← getStr d "Firmware"
  let model ← getStr d "Model"
  let login_method ← getInt d "LoginMethod"
  let https_port ← getInt d "SOAP_HTTPs_Port"
  pure {
    firmware_version := firmware_version
    model := model
    login_method := login_method
    https_port := https_port
  }

/-! ### netgear.py -/

/-- One loop iteration of `NetgearClient.get_current_setting` (netgear.py
lines 91-94): a non-empty line is split on every "=", the key is segment 0
and the value segment 1 (`split_entry[1]` raises `IndexError` when the line
has no "="); an empty line is skipped. -/
def settingsLineStep (res : List (String × String)) (entry : String) :
    Option (List (String × String)) :=
  if entry ≠ "" then do
    let se := pySplit entry '='
    let k ← se[0]?
    let v ← se[1]?
    pure (dictSet res k v)
  else
    some res

/-- Embedding of the body-parsing loop of `NetgearClient.get_current_setting`:
the settings page text split on newlines, folded through
`settingsLineStep` (a raised error aborts the whole call). -/
def parseSettings (response : String) : Option (List (String × String)) :=
  (pySplit response '\n').foldlM settingsLineStep []

/-- The string-keyed field map `_post_xml` returns: tag names to optional
text (an XML element's `.text` is `None` when it has no text). -/
abbrev RespDict := List (String × Option String)

/-- Embedding of the body of `NetgearClient.get_attached_devices` (netgear.py
lines 145-150) applied to the `_post_xml` result map: read the
"NewAttachDevice" field (`KeyError` when absent), return `[]` when it is
falsy (`None` or the empty string), else split on "@", discard the first
segment and decode each remaining segment with
`AttachedDevice.from_string`. -/
def get_attached_devices_from_response (response : RespDict) :
    Option (List AttachedDevice) := do
  let device_string ← dictGet response "NewAttachDevice"
  match device_string with
  | none => pure []
  | some s =>
    if s = "" then pure []
    else ((pySplit s '@').drop 1).mapM AttachedDevice.from_string

/-- A parsed XML element as `xml.etree.ElementTree` presents it: a tag, the
element's text, and its child elements. -/
inductive Xml where
  | elem (tag : String) (text : Option String) (children : List Xml)

/-- Tag of an element. -/
def Xml.tag : Xml → String
  | .elem t _ _ => t

/-- Text of an element (`None` when it has none). -/
def Xml.text : Xml → Option String
  | .elem _ x _ => x

/-- Children of an element. -/
def Xml.children : Xml → List Xml
  | .elem _ _ c => c

mutual

/-- ElementTree's `root.iter()`: the element itself followed by all its
descendants, in document order. -/
def Xml.iter : Xml → List Xml
  | .elem t x cs => .elem t x cs :: Xml.iterList cs

/-- All elements of a forest in document order (worker for `Xml.iter`). -/
def Xml.iterList : List Xml → List Xml
  | [] => []
  | c :: cs => Xml.iter c ++ Xml.iterList cs

end

/-- The namespaced tag `_post_xml` compares against (netgear.py line 123). -/
def soapBodyTag : String :=
  "\x7bhttp://schemas.xmlsoap.org/soap/envelope/\x7dBody"

/-- The response-flattening loop of `NetgearClient._post_xml` (netgear.py
lines 120-128): over every element of the parsed tree whose tag is the
SOAP Body tag, the grandchildren's tags and texts are written into a dict
(later writes override earlier ones).  When no Body element exists the dict
stays empty. -/
def postXmlDict (root : Xml) : RespDict :=
  (root.iter.filter fun e => e.tag = soapBodyTag).foldl
    (fun acc item =>
      item.children.foldl
        (fun acc2 child =>
          child.children.foldl
            (fun acc3 sub => dictSet acc3 sub.tag sub.text) acc2)
        acc)
    []

/-- Response handling of `NetgearClient._post_xml` (netgear.py lines
117-128): `_request` returns the response text whatever the HTTP status
(netgear.py lines 72-80 never inspect `response.status`), so `status` is
never consulted; `parsed` is the outcome of `ET.fromstring` on that text
(`none` = `ParseError`, which propagates).  A parse success always yields
the flattened dict — empty, not an error, when no SOAP Body element is
present. -/
def post_xml_process (status : Nat) (parsed : Option Xml) : Option RespDict :=
  match parsed with
  | none => none
  | some root => some (postXmlDict root)

/-- The session-scoped state of `NetgearClient`: `_soap_port` and
`_login_method`, both `None` until the first successful settings fetch. -/
structure ClientState where
  soap_port : Option Int
  login_method : Option Int
  deriving DecidableEq

/-- Embedding of `NetgearClient.get_current_setting` (netgear.py lines
86-98) given the settings page body: parse the `key=value` lines, decode
them through `CurrentSettings.from_dict`, and on success store the port and
login method in the session state. -/
def get_current_setting_step (body : String) :
    Option (ClientState × CurrentSettings) := do
  let res ← parseSettings body
  let cs ← CurrentSettings.from_dict (res.map fun kv => (kv.1, PyVal.str kv.2))
  pure ({ soap_port := some cs.https_port, login_method := some cs.login_method }, cs)

/-- The discovery guard of `NetgearClient._post_xml` (netgear.py lines
104-105): `if self._soap_port is None or self._login_method is None`. -/
def needs_discovery (st : ClientState) : Bool :=
  st.soap_port.isNone || st.login_method.isNone

/-- The discovery phase of one `_post_xml` call: when the state lacks the
port or the login method, one settings GET is issued (counted by the second
component) and the state is updated on success (`none` = the discovery
failure propagates and the action is not attempted); otherwise no GET
happens and the state is untouched. -/
def post_xml_discovery (st : ClientState) (settingsBody : String) :
    Option ClientState × Nat :=
  if needs_discovery st then
    match get_current_setting_step settingsBody with
    | some (st2, _) => (some st2, 1)
    | none => (none, 1)
  else
    (some st, 0)

/-- A session's sequence of action-invoking calls: each call runs the
discovery phase of `_post_xml` against the settings body the router would
serve at that moment; a failed call leaves the state unchanged.  Returns
the final state and the total number of settings GETs issued. -/
def runTrace : ClientState → List String → ClientState × Nat
  | st, [] => (st, 0)
  | st, b :: bs =>
    let step := post_xml_discovery st b
    let st2 := step.1.getD st
    let rest := runTrace st2 bs
    (rest.1, step.2 + rest.2)

/-! ### Fixtures -/

/-- A complete `DeviceInfo` field map (all aliases present, sentinel "N/A"
in the two optional version fields), parameterized by the `DeviceMode`
value. -/
def deviceInfoFixture (dm : String) : PyDict :=
  [ ("ModelName", PyVal.str "R7800"),
    ("SerialNumber", PyVal.str "SN1"),
    ("Firmwareversion", PyVal.str "V1.0.2.62"),
    ("SmartAgentversion", PyVal.str "3.0"),
    ("FirewallVersion", PyVal.str "net-wall 2.0"),
    ("VPNVersion", PyVal.str "N/A"),
    ("OthersoftwareVersion", PyVal.str "V2"),
    ("Hardwareversion", PyVal.str "R7800"),
    ("Otherhardwareversion", PyVal.str "N/A"),
    ("DeviceName", PyVal.str "R7800"),
    ("DeviceMode", PyVal.str dm) ]

/-! ## Theorems

Shared inversion lemmas first, then one theorem (plus witness or
counterexample) per verified claim. -/

/-- Lookup of the key just written by `dictSet`. -/
theorem dictGet_set_self {α : Type} (d : List (String × α)) (k : String)
    (v : α) : dictGet (dictSet d k v) k = some v := by
  simp [dictGet, dictSet]

/-- `dictSet` leaves lookups of other keys unchanged. -/
theorem dictGet_set_ne {α : Type} (d : List (String × α)) {k k' : String}
    (v : α) (h : k ≠ k') : dictGet (dictSet d k v) k' = dictGet d k' := by
  simp [dictGet, dictSet, h]

/-- The sentinel branch of `normalizeNA` writes `None` over the key. -/
theorem normalizeNA_na {d d' : PyDict} {k : String}
    (h : normalizeNA d k = some d')
    (hv : dictGet d k = some (PyVal.str "N/A")) :
    dictGet d' k = some PyVal.pynone := by
  simp only [normalizeNA, Option.bind_eq_bind, hv, Option.some_bind,
    Option.pure_def, Option.some.injEq] at h
  subst h
  simp only [if_true, dictGet_set_self]

/-- `normalizeNA` never changes the value stored under another key. -/
theorem normalizeNA_get_ne {d d' : PyDict} {k k' : String}
    (hkk : k ≠ k') (h : normalizeNA d k = some d') :
    dictGet d' k' = dictGet d k' := by
  simp only [normalizeNA, Option.bind_eq_bind, Option.bind_eq_some,
    Option.pure_def, Option.some.injEq] at h
  obtain ⟨v, hv, hd⟩ := h
  subst hd
  split
  · exact dictGet_set_ne _ _ hkk
  · rfl

/-- Inversion of a successful `DeviceInfo.from_dict`: the intermediate map
produced by the pre-deserialize hook determines the two fields the claims
inspect. -/
theorem deviceInfo_from_dict_fields {d : PyDict} {r : DeviceInfo}
    (h : DeviceInfo.from_dict d = some r) :
    ∃ d2, DeviceInfo.pre_deserialize d = some d2 ∧
      getOptStr d2 "VPNVersion" = some r.vpn_version ∧
      getDeviceMode d2 "DeviceMode" = some r.device_mode := by
  simp only [DeviceInfo.from_dict, Option.bind_eq_bind, Option.bind_eq_some,
    Option.pure_def, Option.some.injEq] at h
  obtain ⟨d2, hd2, model, hm, sn, hsn, fw, hfw, sa, hsa, fwv, hfwv, vpn, hvpn,
    osw, hosw, hw, hhw, ohw, hohw, dn, hdn, dm, hdm, hr⟩ := h
  subst hr
  exact ⟨d2, hd2, hvpn, hdm⟩

/-- C8: the duration decoder maps the sentinel "--:--" to 0 (not an error),
maps numeric H:MM strings to hours*60+minutes ("1:30" to 90, "0:00" to 0),
and yields a decode error when a non-sentinel record has a non-numeric
segment. -/
theorem c8_duration_decoding :
    time_to_minutes "--:--" = some 0 ∧
    time_to_minutes "1:30" = some 90 ∧
    time_to_minutes "0:00" = some 0 ∧
    (∀ p0 p1 rest h m, pyInt p0 = some h → pyInt p1 = some m →
      timeParts (p0 :: p1 :: rest) = some (h * 60 + m)) ∧
    (∀ p0 p1 rest, ¬(p0 = "--" ∧ p1 = "--") →
      (pyInt p0 = none ∨ pyInt p1 = none) →
      timeParts (p0 :: p1 :: rest) = none) := by
  refine ⟨by decide, by decide, by decide, ?_, ?_⟩
  · intro p0 p1 rest h m hh hm
    have h0 : ¬(p0 = "--" ∧ p1 = "--") := by
      rintro ⟨e, _⟩
      rw [e, show pyInt "--" = none from by decide] at hh
      exact Option.noConfusion hh
    simp only [timeParts, List.getElem?_cons_zero, List.getElem?_cons_succ,
      Option.bind_eq_bind, Option.some_bind, Option.none_bind, Option.pure_def,
      if_neg h0, hh, hm]
  · intro p0 p1 rest hns hbad
    simp only [timeParts, List.getElem?_cons_zero, List.getElem?_cons_succ,
      Option.bind_eq_bind, Option.some_bind, Option.none_bind, Option.pure_def,
      if_neg hns]
    rcases hbad with hb | hb
    · rw [hb]; rfl
    · rw [hb]
      cases pyInt p0 <;> rfl

/-- C8 witness: the duration theorem instantiated at the numeric record
2:05 (125 minutes) and at the non-numeric record 1:xx (decode error). -/
theorem c8_duration_decoding_witness :
    timeParts ["2", "05", ""] = some 125 ∧ timeParts ["1", "xx"] = none :=
  ⟨c8_duration_decoding.2.2.2.1 "2" "05" [""] 2 5 (by decide) (by decide),
   c8_duration_decoding.2.2.2.2 "1" "xx" [] (by decide) (Or.inr (by decide))⟩

/-- C2 counterexample: the claim says a string with more than one "/" is a
decode error, but "1/2/3" splits into three parts and still decodes to the
pair (1, 2) — the third segment is silently ignored. -/
theorem c2_ratio_counterexample :
    (pySplit "1/2/3" '/').length = 3 ∧
    statistics_to_data "1/2/3" = some (mkRat 1 1, mkRat 2 1) := by decide

/-- C2 amended: "12.5/3.2" decodes to (12.5, 3.2) and a string with no "/"
is a decode error, but a string with more than one "/" is not: only the
first two "/"-separated fields are parsed (failing only when one of those
two is non-numeric) and the remaining segments are ignored. -/
theorem c2_ratio_decoding :
    statistics_to_data "12.5/3.2" = some ((25 : ℚ)/2, (16 : ℚ)/5) ∧
    (∀ p0, statsParts [p0] = none) ∧
    (∀ p0 p1 rest a b, pyFloat p0 = some a → pyFloat p1 = some b →
      statsParts (p0 :: p1 :: rest) = some (a, b)) ∧
    (∀ p0 p1 rest, (pyFloat p0 = none ∨ pyFloat p1 = none) →
      statsParts (p0 :: p1 :: rest) = none) := by
  refine ⟨?_, ?_, ?_, ?_⟩
  · have h : statistics_to_data "12.5/3.2" = some (mkRat 25 2, mkRat 16 5) := by
      decide
    rw [h]
    norm_num [Rat.mkRat_eq_div]
  · intro p0
    simp only [statsParts, List.getElem?_cons_zero, List.getElem?_cons_succ,
      List.getElem?_nil, Option.bind_eq_bind, Option.some_bind, Option.none_bind]
  · intro p0 p1 rest a b ha hb
    simp only [statsParts, List.getElem?_cons_zero, List.getElem?_cons_succ,
      Option.bind_eq_bind, Option.some_bind, Option.pure_def, ha, hb]
  · intro p0 p1 rest hbad
    simp only [statsParts, List.getElem?_cons_zero, List.getElem?_cons_succ,
      Option.bind_eq_bind, Option.some_bind, Option.pure_def]
    rcases hbad with hb | hb
    · rw [hb]; rfl
    · rw [hb]; cases pyFloat p0 <;> rfl

/-- C2 witness: the ratio theorem instantiated at a three-segment input
(extra segment ignored) and at a non-numeric first segment (error). -/
theorem c2_ratio_decoding_witness :
    statsParts ["7.5", "2", "junk"] = some (mkRat 15 2, mkRat 2 1) ∧
    statsParts ["x", "1"] = none :=
  ⟨c2_ratio_decoding.2.2.1 "7.5" "2" ["junk"] (mkRat 15 2) (mkRat 2 1)
      (by decide) (by decide),
   c2_ratio_decoding.2.2.2 "x" "1" [] (Or.inl (by decide))⟩

/-- C7: the delimited-record decoder on the 8-segment record
"idx;ip;host;mac;wireless;54;80;Block" yields blocked = true,
link_speed = 54, signal_strength = 80; on the 4-segment record
"idx;ip;--;mac" it leaves hostname, connection_type, link_speed,
signal_strength and blocked unset; in general position 0 is discarded
(it is arbitrary in every conjunct), hostname uses the sentinel "--" for
unset, positions 4-6 are read exactly when there are at least 7 segments,
and blocked is derived from position 7 (present only with at least 8
segments) as true for any text other than "Allow". -/
theorem c7_delimited_record :
    (AttachedDevice.from_string "idx;ip;host;mac;wireless;54;80;Block" =
      some { ip_address := "ip", hostname := some "host",
             name_set_by_user := none, mac_address := "mac",
             connection_type := some .wireless, ssid := none,
             link_speed := some 54, signal_strength := some 80,
             blocked := some true, schedule := none, device_type := none,
             device_model := none, device_model_set_by_user := none,
             qos_priority := none }) ∧
    (AttachedDevice.from_string "idx;ip;--;mac" =
      some { ip_address := "ip", hostname := none, name_set_by_user := none,
             mac_address := "mac", connection_type := none, ssid := none,
             link_speed := none, signal_strength := none, blocked := none,
             schedule := none, device_type := none, device_model := none,
             device_model_set_by_user := none, qos_priority := none }) ∧
    (∀ p0 ip host mac, AttachedDevice.fromParts [p0, ip, host, mac] =
      some { ip_address := ip,
             hostname := if host ≠ "--" then some host else none,
             name_set_by_user := none, mac_address := mac,
             connection_type := none, ssid := none, link_speed := none,
             signal_strength := none, blocked := none, schedule := none,
             device_type := none, device_model := none,
             device_model_set_by_user := none, qos_priority := none }) ∧
    (∀ p0 ip host mac ct ls ss ab c lv sv,
      ConnectionType.ofString ct = some c → ls ≠ "" → pyInt ls = some lv →
      pyInt ss = some sv →
      AttachedDevice.fromParts [p0, ip, host, mac, ct, ls, ss, ab] =
        some { ip_address := ip,
               hostname := if host ≠ "--" then some host else none,
               name_set_by_user := none, mac_address := mac,
               connection_type := some c, ssid := none, link_speed := some lv,
               signal_strength := some sv, blocked := some (ab != "Allow"),
               schedule := none, device_type := none, device_model := none,
               device_model_set_by_user := none, qos_priority := none }) ∧
    (∀ p0 ip host mac ct ls ss c lv sv,
      ConnectionType.ofString ct = some c → ls ≠ "" → pyInt ls = some lv →
      pyInt ss = some sv →
      (AttachedDevice.fromParts [p0, ip, host, mac, ct, ls, ss]).map
        (fun r => r.blocked) = some none) := by
  refine ⟨by decide, by decide, ?_, ?_, ?_⟩
  · intro p0 ip host mac
    simp [AttachedDevice.fromParts]
  · intro p0 ip host mac ct ls ss ab c lv sv hct hls hlv hsv
    simp [AttachedDevice.fromParts, hct, hls, hlv, hsv]
  · intro p0 ip host mac ct ls ss c lv sv hct hls hlv hsv
    simp [AttachedDevice.fromParts, hct, hls, hlv, hsv]

/-- C7 witness: the general conjuncts instantiated at a wired 8-segment
record with a non-"Allow"/"Block" final segment (blocked = true) and at the
matching 7-segment record (blocked unset). -/
theorem c7_delimited_record_witness :
    AttachedDevice.fromParts ["9", "ip9", "--", "m9", "wired", "100", "42", "x"] =
      some { ip_address := "ip9", hostname := none, name_set_by_user := none,
             mac_address := "m9", connection_type := some .wired, ssid := none,
             link_speed := some 100, signal_strength := some 42,
             blocked := some true, schedule := none, device_type := none,
             device_model := none, device_model_set_by_user := none,
             qos_priority := none } ∧
    (AttachedDevice.fromParts ["9", "ip9", "--", "m9", "wired", "100", "42"]).map
      (fun r => r.blocked) = some none := by
  constructor
  · have h := c7_delimited_record.2.2.2.1 "9" "ip9" "--" "m9" "wired" "100" "42"
      "x" .wired 100 42 (by decide) (by decide) (by decide) (by decide)
    rw [h]
    decide
  · exact c7_delimited_record.2.2.2.2 "9" "ip9" "--" "m9" "wired" "100" "42"
      .wired 100 42 (by decide) (by decide) (by decide) (by decide)

/-- C10: in a delimited record with at least 7 segments whose link-speed
segment (position 5) is empty, decoding succeeds with link_speed unset
instead of failing on a numeric parse, while the signal-strength segment at
position 6 is still unconditionally parsed as an integer (a non-numeric
position 6 fails the whole decode even when position 5 is empty). -/
theorem c10_empty_link_speed :
    (∀ p0 ip host mac ct ss ab c sv,
      ConnectionType.ofString ct = some c → pyInt ss = some sv →
      AttachedDevice.fromParts [p0, ip, host, mac, ct, "", ss, ab] =
        some { ip_address := ip,
               hostname := if host ≠ "--" then some host else none,
               name_set_by_user := none, mac_address := mac,
               connection_type := some c, ssid := none, link_speed := none,
               signal_strength := some sv, blocked := some (ab != "Allow"),
               schedule := none, device_type := none, device_model := none,
               device_model_set_by_user := none, qos_priority := none }) ∧
    (∀ p0 ip host mac ct ss c sv,
      ConnectionType.ofString ct = some c → pyInt ss = some sv →
      (AttachedDevice.fromParts [p0, ip, host, mac, ct, "", ss]).map
        (fun r => r.link_speed) = some none) ∧
    (∀ p0 ip host mac ct ss c,
      ConnectionType.ofString ct = some c → pyInt ss = none →
      AttachedDevice.fromParts [p0, ip, host, mac, ct, "", ss] = none) := by
  refine ⟨?_, ?_, ?_⟩
  · intro p0 ip host mac ct ss ab c sv hct hsv
    simp [AttachedDevice.fromParts, hct, hsv]
  · intro p0 ip host mac ct ss c sv hct hsv
    simp [AttachedDevice.fromParts, hct, hsv]
  · intro p0 ip host mac ct ss c hct hsv
    simp [AttachedDevice.fromParts, hct, hsv]

/-- C10 witness: an empty position 5 decodes with link_speed unset while
position 6 is parsed (42), and an empty position 6 fails the decode. -/
theorem c10_empty_link_speed_witness :
    (AttachedDevice.fromParts ["0", "ip", "h", "m", "wired", "", "42"]).map
      (fun r => r.link_speed) = some none ∧
    AttachedDevice.fromParts ["0", "ip", "h", "m", "wired", "", ""] = none :=
  ⟨c10_empty_link_speed.2.1 "0" "ip" "h" "m" "wired" "42" .wired 42
      (by decide) (by decide),
   c10_empty_link_speed.2.2 "0" "ip" "h" "m" "wired" "" .wired
      (by decide) (by decide)⟩

/-- C3 counterexample: the claim says a keyed field map without the
AllowOrBlock field decodes successfully with blocked = false, but the
pre-deserialize hook reads `d["AllowOrBlock"]` unconditionally, so such a
map fails to decode (KeyError) instead. -/
theorem c3_keyed_blocked_counterexample :
    AttachedDevice.decodeBlocked
      [("IP", PyVal.str "10.0.0.2"), ("Name", PyVal.str "pc"),
       ("MAC", PyVal.str "aa:bb")] = none ∧
    AttachedDevice.decodeBlocked
      [("IP", PyVal.str "10.0.0.2"), ("Name", PyVal.str "pc"),
       ("MAC", PyVal.str "aa:bb")] ≠ some false := by
  decide

/-- C3 amended: for a keyed field map in which AllowOrBlock is present,
decoding yields blocked = true exactly when its value is the string
"Block" (so "Allow" gives false); a map lacking AllowOrBlock fails to
decode rather than defaulting blocked to false. -/
theorem c3_keyed_blocked_flag :
    (∀ d v, dictGet d "AllowOrBlock" = some v →
      AttachedDevice.decodeBlocked d = some (v == PyVal.str "Block")) ∧
    (∀ d, dictGet d "AllowOrBlock" = none →
      AttachedDevice.decodeBlocked d = none) ∧
    (AttachedDevice.decodeBlocked [("AllowOrBlock", PyVal.str "Block")] =
      some true) ∧
    (AttachedDevice.decodeBlocked [("AllowOrBlock", PyVal.str "Allow")] =
      some false) := by
  refine ⟨?_, ?_, by decide, by decide⟩
  · intro d v hv
    simp only [AttachedDevice.decodeBlocked, AttachedDevice.pre_deserialize,
      Option.bind_eq_bind, hv, Option.some_bind, Option.pure_def,
      dictGet_set_self]
  · intro d hv
    simp only [AttachedDevice.decodeBlocked, AttachedDevice.pre_deserialize,
      Option.bind_eq_bind, hv, Option.none_bind, Option.pure_def]

/-- C3 witness: the keyed blocked-flag theorem instantiated at a map with
AllowOrBlock = "Block" and at a map lacking the field. -/
theorem c3_keyed_blocked_flag_witness :
    AttachedDevice.decodeBlocked
      [("IP", PyVal.str "10.0.0.2"), ("AllowOrBlock", PyVal.str "Block")] =
      some true ∧
    AttachedDevice.decodeBlocked [("IP", PyVal.str "10.0.0.2")] = none :=
  ⟨c3_keyed_blocked_flag.1 _ (PyVal.str "Block") (by decide),
   c3_keyed_blocked_flag.2.1 _ (by decide)⟩

/-- C5 counterexample: the claim says a settings line is split on the first
"=" only, with the full remainder kept as the value; but for the line
"Key=a=b" the stored value is "a", not "a=b" — the text after the second
"=" is discarded. -/
theorem c5_settings_counterexample :
    (parseSettings "Key=a=b").map (fun r => dictGet r "Key") = some (some "a") ∧
    (parseSettings "Key=a=b").map (fun r => dictGet r "Key") ≠
      some (some "a=b") := by
  decide

/-- C5 amended: each non-empty settings line is split on every "="; the key
is segment 0 and the value is segment 1 only (text after a second "=" is
discarded), a non-empty line without "=" is a decode error, and empty
lines are skipped. -/
theorem c5_settings_line_decoding :
    ((parseSettings "Key=a=b").map (fun r => dictGet r "Key") =
      some (some "a")) ∧
    (∀ res entry k v rest, pySplit entry '=' = k :: v :: rest → entry ≠ "" →
      settingsLineStep res entry = some (dictSet res k v)) ∧
    (∀ res entry k, pySplit entry '=' = [k] → entry ≠ "" →
      settingsLineStep res entry = none) ∧
    (∀ res, settingsLineStep res "" = some res) := by
  refine ⟨by decide, ?_, ?_, ?_⟩
  · intro res entry k v rest hsplit hne
    simp only [settingsLineStep, if_pos hne, hsplit, List.getElem?_cons_zero,
      List.getElem?_cons_succ, Option.bind_eq_bind, Option.some_bind,
      Option.pure_def]
  · intro res entry k hsplit hne
    simp only [settingsLineStep, if_pos hne, hsplit, List.getElem?_cons_zero,
      List.getElem?_cons_succ, List.getElem?_nil, Option.bind_eq_bind,
      Option.some_bind, Option.none_bind, Option.pure_def]
  · intro res
    simp [settingsLineStep]

/-- C5 witness: the settings-line theorem instantiated at a two-"=" line
(value is the middle segment) and at a line without "=" (error). -/
theorem c5_settings_line_witness :
    settingsLineStep [] "A=1=2" = some [("A", "1")] ∧
    settingsLineStep [] "bogus" = none :=
  ⟨c5_settings_line_decoding.2.1 [] "A=1=2" "A" "1" ["2"] (by decide)
      (by decide),
   c5_settings_line_decoding.2.2.1 [] "bogus" "bogus" (by decide) (by decide)⟩

/-- C6 counterexample: the claim says that when the device-list field is
entirely absent from the response map the result is an empty sequence, but
`response["NewAttachDevice"]` raises KeyError on such a map, so the call
fails instead of returning an empty list. -/
theorem c6_attached_devices_counterexample :
    get_attached_devices_from_response [("OtherField", some "x")] = none ∧
    get_attached_devices_from_response [("OtherField", some "x")] ≠ some [] := by
  decide

/-- C6 amended: getAttachedDevices splits the device-list field on "@",
discards the first segment and decodes each remaining segment with the
delimited-record codec; a present-but-falsy field (None or the empty
string) yields an empty sequence, but an absent field is a KeyError, not
an empty sequence. -/
theorem c6_attached_devices_response :
    (∀ resp, dictGet resp "NewAttachDevice" = some Option.none →
      get_attached_devices_from_response resp = some []) ∧
    (∀ resp, dictGet resp "NewAttachDevice" = some (some "") →
      get_attached_devices_from_response resp = some []) ∧
    (∀ resp s, dictGet resp "NewAttachDevice" = some (some s) → s ≠ "" →
      get_attached_devices_from_response resp =
        ((pySplit s '@').drop 1).mapM AttachedDevice.from_string) ∧
    (∀ resp, dictGet resp "NewAttachDevice" = none →
      get_attached_devices_from_response resp = none) ∧
    ((get_attached_devices_from_response
        [("NewAttachDevice", some "2@1;ip1;--;mac1@2;ip2;host2;mac2")]).map
      (fun l => l.map fun d => d.ip_address) = some ["ip1", "ip2"]) := by
  refine ⟨?_, ?_, ?_, ?_, by decide⟩
  · intro resp hv
    simp only [get_attached_devices_from_response, Option.bind_eq_bind, hv,
      Option.some_bind, Option.pure_def]
  · intro resp hv
    simp [get_attached_devices_from_response, hv]
  · intro resp s hv hne
    simp only [get_attached_devices_from_response, Option.bind_eq_bind, hv,
      Option.some_bind, Option.pure_def, if_neg hne]
  · intro resp hv
    simp only [get_attached_devices_from_response, Option.bind_eq_bind, hv,
      Option.none_bind]

/-- C6 witness: the response theorem instantiated at a one-device list
(header segment discarded) and at an empty-string list field. -/
theorem c6_attached_devices_witness :
    get_attached_devices_from_response
      [("NewAttachDevice", some "0@x;ip;--;mac")] =
      ((pySplit "0@x;ip;--;mac" '@').drop 1).mapM AttachedDevice.from_string ∧
    get_attached_devices_from_response [("NewAttachDevice", some "")] =
      some [] :=
  ⟨c6_attached_devices_response.2.2.1 _ "0@x;ip;--;mac" (by decide) (by decide),
   c6_attached_devices_response.2.1 _ (by decide)⟩

/-- C1 counterexample: the claim says DeviceMode = "0.0" decodes
successfully (to the router variant) via a float-then-truncate coercion,
but `DeviceInfo.__pre_deserialize__` uses the strict `int(...)`, so an
otherwise fully decodable field map fails on "0.0". -/
theorem c1_device_mode_counterexample :
    DeviceInfo.from_dict (deviceInfoFixture "0.0") = none ∧
    DeviceInfo.from_dict (deviceInfoFixture "0") ≠ none := by
  decide

/-- C1 amended: VPNVersion = "N/A" decodes to an unset vpn_version and
DeviceMode = "0" decodes to the router variant, but the device-mode
coercion is a strict integer parse — DeviceMode = "0.0" makes the whole
decode fail — and only the login-method field (CurrentSettings) coerces
via the float-then-truncate path. -/
theorem c1_device_info_coercion :
    (DeviceInfo.from_dict (deviceInfoFixture "0") =
      some { model := "R7800", serial_number := "SN1",
             firmware_version := "V1.0.2.62", smart_agent_version := "3.0",
             firewall_version := "net-wall 2.0", vpn_version := none,
             other_software_version := "V2", hardware_version := "R7800",
             other_hardware_version := none, device_name := "R7800",
             device_mode := .router }) ∧
    (∀ d r, DeviceInfo.from_dict d = some r →
      dictGet d "VPNVersion" = some (PyVal.str "N/A") → r.vpn_version = none) ∧
    (∀ d, dictGet d "DeviceMode" = some (PyVal.str "0.0") →
      DeviceInfo.from_dict d = none) ∧
    (∀ d r s q, CurrentSettings.from_dict d = some r →
      dictGet d "LoginMethod" = some (PyVal.str s) → pyFloat s = some q →
      r.login_method = ratTrunc q) := by
  refine ⟨by decide, ?_, ?_, ?_⟩
  · intro d r h hNA
    obtain ⟨d2, hd2, hvpn, _⟩ := deviceInfo_from_dict_fields h
    simp only [DeviceInfo.pre_deserialize, Option.bind_eq_bind,
      Option.bind_eq_some, Option.pure_def, Option.some.injEq] at hd2
    obtain ⟨da, hda, db, hdb, dm, hdm, n, hn, hset⟩ := hd2
    subst hset
    have h1 : dictGet da "VPNVersion" = some PyVal.pynone :=
      normalizeNA_na hda hNA
    have h2 : dictGet db "VPNVersion" = some PyVal.pynone := by
      rw [normalizeNA_get_ne (by decide) hdb]; exact h1
    have h3 : dictGet (dictSet db "DeviceMode" (PyVal.int n)) "VPNVersion" =
        some PyVal.pynone := by
      rw [dictGet_set_ne _ _ (by decide)]; exact h2
    simp only [getOptStr, h3] at hvpn
    injection hvpn with hv
    exact hv.symm
  · intro d hdm
    have hpre : DeviceInfo.pre_deserialize d = none := by
      simp only [DeviceInfo.pre_deserialize, Option.bind_eq_bind]
      cases h1 : normalizeNA d "VPNVersion" with
      | none => rfl
      | some d1 =>
        have hdm1 : dictGet d1 "DeviceMode" = some (PyVal.str "0.0") := by
          rw [normalizeNA_get_ne (by decide) h1]; exact hdm
        simp only [Option.some_bind]
        cases h2 : normalizeNA d1 "Otherhardwareversion" with
        | none => rfl
        | some d2 =>
          have hdm2 : dictGet d2 "DeviceMode" = some (PyVal.str "0.0") := by
            rw [normalizeNA_get_ne (by decide) h2]; exact hdm1
          simp only [Option.some_bind, hdm2]
          rw [show pyIntVal (PyVal.str "0.0") = none from by decide]
          rfl
    simp only [DeviceInfo.from_dict, Option.bind_eq_bind, hpre,
      Option.none_bind]
  · intro d r s q h hlm hq
    simp only [CurrentSettings.from_dict, Option.bind_eq_bind,
      Option.bind_eq_some, Option.pure_def, Option.some.injEq] at h
    obtain ⟨d2, hd2, fw, hfw, model, hm, lm, hlmv, port, hport, hr⟩ := h
    subst hr
    simp only [CurrentSettings.pre_deserialize, Option.bind_eq_bind,
      Option.bind_eq_some, Option.pure_def, Option.some.injEq] at hd2
    obtain ⟨v, hv, q', hq', hset⟩ := hd2
    rw [hlm, Option.some.injEq] at hv
    subst hv
    simp only [pyFloatVal, hq, Option.some.injEq] at hq'
    subst hq'
    subst hset
    simp only [getInt, dictGet_set_self, Option.some_bind, pyIntVal,
      Option.some.injEq] at hlmv
    exact hlmv.symm

/-- C1 witness: the coercion theorem instantiated at the complete fixture
map (VPNVersion = "N/A" gives an unset field; DeviceMode = "0.0" fails). -/
theorem c1_device_info_coercion_witness :
    (({ model := "R7800", serial_number := "SN1",
        firmware_version := "V1.0.2.62", smart_agent_version := "3.0",
        firewall_version := "net-wall 2.0", vpn_version := none,
        other_software_version := "V2", hardware_version := "R7800",
        other_hardware_version := none, device_name := "R7800",
        device_mode := .router } : DeviceInfo)).vpn_version = none ∧
    DeviceInfo.from_dict (deviceInfoFixture "0.0") = none :=
  ⟨c1_device_info_coercion.2.1 (deviceInfoFixture "0") _ (by decide)
      (by decide),
   c1_device_info_coercion.2.2.1 (deviceInfoFixture "0.0") (by decide)⟩

/-- C4 counterexample: the claim says a non-2xx status or a response whose
XML lacks the SOAP Body element surfaces as a driver-level error, never as
a successful result; but a status-500 response whose (well-formed) XML has
no Body element yields a successful empty field map. -/
theorem c4_soap_response_counterexample :
    post_xml_process 500 (some (Xml.elem "html" none [])) = some [] ∧
    post_xml_process 500 (some (Xml.elem "html" none [])) ≠ none := by
  decide

/-- C4 amended: the driver never consults the HTTP status; a malformed XML
response is a raw parse error (not a driver-level error naming the
action); and a parsed response with no SOAP Body element yields a
successful empty field map rather than an error.  When a Body element is
present its grandchildren are flattened into the returned map. -/
theorem c4_soap_response_handling :
    (∀ status status2 parsed,
      post_xml_process status parsed = post_xml_process status2 parsed) ∧
    (∀ status, post_xml_process status none = none) ∧
    (∀ status root, (∀ e ∈ root.iter, e.tag ≠ soapBodyTag) →
      post_xml_process status (some root) = some []) ∧
    (post_xml_process 200 (some (Xml.elem "env" none
      [Xml.elem soapBodyTag none
        [Xml.elem "resp" none [Xml.elem "A" (some "1") []]]])) =
      some [("A", some "1")]) := by
  refine ⟨?_, ?_, ?_, by decide⟩
  · intro s1 s2 parsed
    rfl
  · intro s
    rfl
  · intro s root hno
    have hfil : root.iter.filter (fun e => e.tag = soapBodyTag) = [] := by
      rw [List.filter_eq_nil_iff]
      intro e he
      simpa using hno e he
    simp only [post_xml_process, postXmlDict, hfil, List.foldl_nil]

/-- C4 witness: the response theorem instantiated at a Body-less document
under a 404 status — the result is the successful empty map. -/
theorem c4_soap_response_handling_witness :
    post_xml_process 404 (some (Xml.elem "err" (some "not found") [])) =
      some [] :=
  c4_soap_response_handling.2.2.1 404 (Xml.elem "err" (some "not found") [])
    (by decide)

/-- C9: once the session state holds a discovered port and login method, no
action-invoking call issues a settings GET and the state stays unchanged
(so the Uninitialized-to-Discovered transition happens at most once per
session); a call issues no GET exactly when the state is already
discovered, and a successful discovery stores the decoded port and login
method. -/
theorem c9_discovery_idempotence :
    (∀ st bs, st.soap_port ≠ none → st.login_method ≠ none →
      runTrace st bs = (st, 0)) ∧
    (∀ st b, (post_xml_discovery st b).2 = 0 ↔
      (st.soap_port ≠ none ∧ st.login_method ≠ none)) ∧
    (∀ b st2 cs, get_current_setting_step b = some (st2, cs) →
      st2.soap_port = some cs.https_port ∧
      st2.login_method = some cs.login_method) := by
  refine ⟨?_, ?_, ?_⟩
  · intro st bs h1 h2
    induction bs with
    | nil => rfl
    | cons b bs ih =>
      have hnd : needs_discovery st = false := by
        obtain ⟨p, l⟩ := st
        cases p
        · exact absurd rfl h1
        · cases l
          · exact absurd rfl h2
          · rfl
      simp only [runTrace, post_xml_discovery, hnd, Bool.false_eq_true,
        if_false, Option.getD_some, ih]
  · intro st b
    obtain ⟨p, l⟩ := st
    cases p <;> cases l <;>
      simp [post_xml_discovery, needs_discovery] <;>
      (cases hg : get_current_setting_step b <;> simp [hg])
  · intro b st2 cs h
    simp only [get_current_setting_step, Option.bind_eq_bind,
      Option.bind_eq_some, Option.pure_def, Option.some.injEq] at h
    obtain ⟨res, hres, c, hc, heq⟩ := h
    rw [Prod.mk.injEq] at heq
    obtain ⟨hst, hcs⟩ := heq
    subst hst
    subst hcs
    exact ⟨rfl, rfl⟩

/-- C9 witness: a discovered state (port 5555, login method 1) runs a
two-call trace with zero settings GETs and an unchanged state. -/
theorem c9_discovery_idempotence_witness :
    runTrace { soap_port := some 5555, login_method := some 1 } ["", "x"] =
      ({ soap_port := some 5555, login_method := some 1 }, 0) :=
  c9_discovery_idempotence.1 { soap_port := some 5555, login_method := some 1 }
    ["", "x"] (by decide) (by decide)

end Netgearpy
